import Mathlib

/-!
Verification of the moltbot-pi feature-flag / capability-gating layer.

Shallow embedding of `src/infra/features.ts` (profile resolution,
environment overrides, caching) and of the five lazy capability loaders
(`src/compat/lazy-sharp.ts`, `lazy-pdfjs.ts`, `lazy-baileys.ts`,
`lazy-llama.ts` and the playwright wrapper).

Host facts that the TypeScript reads from the operating system
(`os.totalmem()` rounded to MB, the `/proc/device-tree/model` Raspberry-Pi
check) are passed in explicitly as a `Host` record; `process.env` is
passed in as an `Env` record whose `Option String` fields model
set/unset environment variables.  Truthiness of a JavaScript string
(`undefined` and `""` are falsy) is modelled by `envTruthy` / `strOr`.
-/

namespace Moltbot

/-- `ChannelFeatures` from `features.ts`: one boolean per messaging channel. -/
structure ChannelFeatures where
  whatsapp : Bool
  telegram : Bool
  discord : Bool
  slack : Bool
  signal : Bool
  imessage : Bool
  line : Bool
  msteams : Bool
  matrix : Bool
  googlechat : Bool
  webchat : Bool
  deriving DecidableEq, Repr

/-- `ToolFeatures` from `features.ts`. -/
structure ToolFeatures where
  bash : Bool
  files : Bool
  webScrape : Bool
  screenshot : Bool
  browser : Bool
  imageEdit : Bool
  deriving DecidableEq, Repr

/-- `FeatureFlags` from `features.ts`. -/
structure FeatureFlags where
  browser : Bool
  imageProcessing : Bool
  pdfParsing : Bool
  localLLM : Bool
  canvas : Bool
  tui : Bool
  controlUI : Bool
  mediaUnderstanding : Bool
  tts : Bool
  voiceWake : Bool
  channels : ChannelFeatures
  tools : ToolFeatures
  localEmbeddings : Bool
  vectorDB : Bool
  bonjour : Bool
  tailscale : Bool
  cron : Bool
  deriving DecidableEq, Repr

/-- `defaultFeatures` constant from `features.ts`. -/
def defaultFeatures : FeatureFlags where
  browser := true
  imageProcessing := true
  pdfParsing := true
  localLLM := false
  canvas := false
  tui := true
  controlUI := true
  mediaUnderstanding := true
  tts := true
  voiceWake := true
  channels :=
    { whatsapp := true, telegram := true, discord := true, slack := true
      signal := true, imessage := true, line := true, msteams := true
      matrix := true, googlechat := true, webchat := true }
  tools :=
    { bash := true, files := true, webScrape := true, screenshot := true
      browser := true, imageEdit := true }
  localEmbeddings := false
  vectorDB := true
  bonjour := true
  tailscale := true
  cron := true

/-- `raspberryPiFeatures` constant from `features.ts`. -/
def raspberryPiFeatures : FeatureFlags where
  browser := false
  imageProcessing := false
  pdfParsing := false
  localLLM := false
  canvas := false
  tui := false
  controlUI := false
  mediaUnderstanding := true
  tts := false
  voiceWake := false
  channels :=
    { whatsapp := false, telegram := true, discord := false, slack := false
      signal := false, imessage := false, line := false, msteams := false
      matrix := false, googlechat := false, webchat := true }
  tools :=
    { bash := true, files := true, webScrape := false, screenshot := false
      browser := false, imageEdit := false }
  localEmbeddings := false
  vectorDB := false
  bonjour := false
  tailscale := false
  cron := true

/-- `embeddedFeatures` constant from `features.ts`. -/
def embeddedFeatures : FeatureFlags where
  browser := false
  imageProcessing := false
  pdfParsing := false
  localLLM := false
  canvas := false
  tui := false
  controlUI := false
  mediaUnderstanding := false
  tts := false
  voiceWake := false
  channels :=
    { whatsapp := false, telegram := true, discord := false, slack := false
      signal := false, imessage := false, line := false, msteams := false
      matrix := false, googlechat := false, webchat := false }
  tools :=
    { bash := true, files := false, webScrape := false, screenshot := false
      browser := false, imageEdit := false }
  localEmbeddings := false
  vectorDB := false
  bonjour := false
  tailscale := false
  cron := false

/-- The profile registry `profiles` from `features.ts`; `none` models a key
absent from the record (JavaScript `undefined`). -/
def profiles (name : String) : Option FeatureFlags :=
  if name = "default" then some defaultFeatures
  else if name = "raspberry-pi" then some raspberryPiFeatures
  else if name = "rpi" then some raspberryPiFeatures
  else if name = "lite" then some raspberryPiFeatures
  else if name = "embedded" then some embeddedFeatures
  else if name = "iot" then some embeddedFeatures
  else none

/-- The environment variables read by `features.ts`; a field is `none` when
the variable is unset. -/
structure Env where
  MOLTBOT_PROFILE : Option String
  CLAWDBOT_PROFILE : Option String
  MOLTBOT_DISABLE_BROWSER : Option String
  MOLTBOT_DISABLE_SHARP : Option String
  MOLTBOT_DISABLE_TUI : Option String
  MOLTBOT_CHANNELS : Option String
  deriving DecidableEq, Repr

/-- Host facts consumed by `features.ts`: the Raspberry-Pi device check
(`isRaspberryPi`) and `getTotalMemoryMB` (total memory rounded to MB). -/
structure Host where
  isRaspberryPi : Bool
  totalMemoryMB : Nat
  deriving DecidableEq, Repr

/-- JavaScript string truthiness: `undefined` and `""` are falsy. -/
def envTruthy : Option String → Bool
  | none => false
  | some s => !(s == "")

/-- JavaScript `a || b` for an optional string `a`: falls through to `b`
when `a` is `undefined` or `""`. -/
def strOr (a : Option String) (b : String) : String :=
  match a with
  | none => b
  | some s => if s == "" then b else s

/-- `detectProfile` from `features.ts`: Raspberry-Pi host with total memory
below 600 MB selects `raspberry-pi`, everything else `default`. -/
def detectProfile (host : Host) : String :=
  if host.isRaspberryPi then
    if host.totalMemoryMB < 600 then "raspberry-pi" else "default"
  else "default"

/-- Helper for `splitComma`: walk the characters, cutting at each
separator; the accumulator holds the current segment reversed. -/
def splitCharsAux (sep : Char) : List Char → List Char → List String
  | [], acc => [String.mk acc.reverse]
  | c :: rest, acc =>
      if c = sep then String.mk acc.reverse :: splitCharsAux sep rest []
      else splitCharsAux sep rest (c :: acc)

/-- JavaScript `s.split(',')` as used on `MOLTBOT_CHANNELS`: split at every
comma, keeping empty segments (structurally recursive so that concrete
instances evaluate in the kernel). -/
def splitComma (s : String) : List String := splitCharsAux ',' s.data []

/-- The channel record built by the `MOLTBOT_CHANNELS` branch of
`applyEnvOverrides`: each channel is enabled exactly when its name is in
the comma-separated list. -/
def channelsFromList (enabledChannels : List String) : ChannelFeatures where
  whatsapp := enabledChannels.contains "whatsapp"
  telegram := enabledChannels.contains "telegram"
  discord := enabledChannels.contains "discord"
  slack := enabledChannels.contains "slack"
  signal := enabledChannels.contains "signal"
  imessage := enabledChannels.contains "imessage"
  line := enabledChannels.contains "line"
  msteams := enabledChannels.contains "msteams"
  matrix := enabledChannels.contains "matrix"
  googlechat := enabledChannels.contains "googlechat"
  webchat := enabledChannels.contains "webchat"

/-- `applyEnvOverrides` from `features.ts`, with the four override
branches applied in source order (browser, sharp, tui, channels). -/
def applyEnvOverrides (env : Env) (features : FeatureFlags) : FeatureFlags :=
  let r1 :=
    if env.MOLTBOT_DISABLE_BROWSER = some "1" then
      { features with
          browser := false
          tools := { features.tools with
                       browser := false, webScrape := false, screenshot := false } }
    else features
  let r2 :=
    if env.MOLTBOT_DISABLE_SHARP = some "1" then
      { r1 with imageProcessing := false, tools := { r1.tools with imageEdit := false } }
    else r1
  let r3 :=
    if env.MOLTBOT_DISABLE_TUI = some "1" then { r2 with tui := false } else r2
  match env.MOLTBOT_CHANNELS with
  | some s =>
      if s == "" then r3
      else { r3 with channels := channelsFromList (splitComma s) }
  | none => r3

/-- The module-level `cachedFeatures` variable of `features.ts`. -/
structure FeaturesState where
  cachedFeatures : Option FeatureFlags
  deriving DecidableEq, Repr

/-- The profile-name expression of `loadFeatures`
(`forceProfile || MOLTBOT_PROFILE || CLAWDBOT_PROFILE || detectProfile()`). -/
def resolveProfileName (env : Env) (host : Host) (forceProfile : Option String) : String :=
  strOr forceProfile (strOr env.MOLTBOT_PROFILE (strOr env.CLAWDBOT_PROFILE (detectProfile host)))

/-- `loadFeatures` from `features.ts`, with the cache threaded explicitly:
returns the flags together with the new cache state. -/
def loadFeatures (env : Env) (host : Host) (forceProfile : Option String)
    (st : FeaturesState) : FeatureFlags × FeaturesState :=
  let profile := resolveProfileName env host forceProfile
  let features := (profiles profile).getD defaultFeatures
  let overridden := applyEnvOverrides env features
  match st.cachedFeatures with
  | some cached =>
      if envTruthy forceProfile then (overridden, st) else (cached, st)
  | none =>
      if envTruthy forceProfile then (overridden, st)
      else (overridden, { cachedFeatures := some overridden })

/-- `getCurrentProfile` from `features.ts`: ignores both the cache and any
forced profile, recomputing from the environment and host each call. -/
def getCurrentProfile (env : Env) (host : Host) : String :=
  strOr env.MOLTBOT_PROFILE (strOr env.CLAWDBOT_PROFILE (detectProfile host))

/-- Return type of `getProfileRecommendation`. -/
structure ProfileRecommendation where
  profile : String
  reason : String
  memoryMB : Nat
  deriving DecidableEq, Repr

/-- `getProfileRecommendation` from `features.ts`, parameterised by the
memory reading it takes from `getTotalMemoryMB()`. -/
def getProfileRecommendation (memoryMB : Nat) : ProfileRecommendation :=
  if memoryMB < 600 then
    { profile := "raspberry-pi", reason := "Low memory detected (<600MB)", memoryMB := memoryMB }
  else if memoryMB < 1500 then
    { profile := "lite", reason := "Limited memory detected (<1.5GB)", memoryMB := memoryMB }
  else
    { profile := "default", reason := "Sufficient memory for full features", memoryMB := memoryMB }

/-- The scalar capability flags of `FeatureFlags` (the `keyof FeatureFlags`
boolean keys), used to quantify over capabilities. -/
inductive CapabilityId where
  | browser | imageProcessing | pdfParsing | localLLM | canvas
  | tui | controlUI | mediaUnderstanding | tts | voiceWake
  | localEmbeddings | vectorDB | bonjour | tailscale | cron
  deriving DecidableEq, Repr

/-- Key-indexed read of a scalar capability flag (`features[feature]`). -/
def FeatureFlags.capability (f : FeatureFlags) : CapabilityId → Bool
  | .browser => f.browser
  | .imageProcessing => f.imageProcessing
  | .pdfParsing => f.pdfParsing
  | .localLLM => f.localLLM
  | .canvas => f.canvas
  | .tui => f.tui
  | .controlUI => f.controlUI
  | .mediaUnderstanding => f.mediaUnderstanding
  | .tts => f.tts
  | .voiceWake => f.voiceWake
  | .localEmbeddings => f.localEmbeddings
  | .vectorDB => f.vectorDB
  | .bonjour => f.bonjour
  | .tailscale => f.tailscale
  | .cron => f.cron

/-- The channel identifiers (`keyof ChannelFeatures`). -/
inductive ChannelId where
  | whatsapp | telegram | discord | slack | signal | imessage
  | line | msteams | matrix | googlechat | webchat
  deriving DecidableEq, Repr

/-- The string key of a channel identifier, as it appears in the
`MOLTBOT_CHANNELS` comma-separated list. -/
def ChannelId.name : ChannelId → String
  | .whatsapp => "whatsapp"
  | .telegram => "telegram"
  | .discord => "discord"
  | .slack => "slack"
  | .signal => "signal"
  | .imessage => "imessage"
  | .line => "line"
  | .msteams => "msteams"
  | .matrix => "matrix"
  | .googlechat => "googlechat"
  | .webchat => "webchat"

/-- Key-indexed read of a channel flag (`features.channels[channel]`). -/
def ChannelFeatures.get (c : ChannelFeatures) : ChannelId → Bool
  | .whatsapp => c.whatsapp
  | .telegram => c.telegram
  | .discord => c.discord
  | .slack => c.slack
  | .signal => c.signal
  | .imessage => c.imessage
  | .line => c.line
  | .msteams => c.msteams
  | .matrix => c.matrix
  | .googlechat => c.googlechat
  | .webchat => c.webchat

/-- The tool identifiers (`keyof ToolFeatures`). -/
inductive ToolId where
  | bash | files | webScrape | screenshot | browser | imageEdit
  deriving DecidableEq, Repr

/-- Key-indexed read of a tool flag (`features.tools[tool]`). -/
def ToolFeatures.get (t : ToolFeatures) : ToolId → Bool
  | .bash => t.bash
  | .files => t.files
  | .webScrape => t.webScrape
  | .screenshot => t.screenshot
  | .browser => t.browser
  | .imageEdit => t.imageEdit

/-- `isFeatureEnabled` from `features.ts` (unforced `loadFeatures`, then a
key read); the updated cache is returned alongside. -/
def isFeatureEnabled (env : Env) (host : Host) (st : FeaturesState)
    (c : CapabilityId) : Bool × FeaturesState :=
  let r := loadFeatures env host none st
  (r.1.capability c, r.2)

/-- `isChannelEnabled` from `features.ts`. -/
def isChannelEnabled (env : Env) (host : Host) (st : FeaturesState)
    (c : ChannelId) : Bool × FeaturesState :=
  let r := loadFeatures env host none st
  (r.1.channels.get c, r.2)

/-- `isToolEnabled` from `features.ts`. -/
def isToolEnabled (env : Env) (host : Host) (st : FeaturesState)
    (t : ToolId) : Bool × FeaturesState :=
  let r := loadFeatures env host none st
  (r.1.tools.get t, r.2)

/-! ## Lazy capability loaders

Each `lazy-*.ts` wrapper keeps a module-level cached module reference
(null until the first successful import) and exposes a `loadX` entry
point: throw the capability-specific disabled error when the flag is off,
return the cached module if present, otherwise `await import(...)` —
caching on success, wrapping the cause in a plain `Error` on failure.

`LoaderState.moduleCached` models `xModule !== null`; `loadAttempts`
counts started imports (the test-observable import counter).  The outcome
of the dynamic `import` is supplied as an `Except String Unit` argument
(`error cause` models a rejected import).  The profile string interpolated
into error messages is the `getCurrentProfile()` value at throw time. -/

/-- The two error kinds a loader can raise: the capability-specific
disabled error subclass, or the plain `Error` wrapping a failed import. -/
inductive LoaderError where
  | disabled (message : String)
  | loadFailed (message : String)
  deriving DecidableEq, Repr

/-- Per-loader cache state: the module reference and the import counter. -/
structure LoaderState where
  moduleCached : Bool
  loadAttempts : Nat
  deriving DecidableEq, Repr

/-- Message of `ImageProcessingDisabledError` (`lazy-sharp.ts`). -/
def imageProcessingDisabledMessage (profile : String) : String :=
  "Image processing is disabled in profile \"" ++ profile ++ "\". " ++
    "Set MOLTBOT_PROFILE=default or enable imageProcessing feature. " ++
    "Alternatively, use Claude Vision API for image analysis."

/-- Message of `PDFParsingDisabledError` (`lazy-pdfjs.ts`). -/
def pdfParsingDisabledMessage (profile : String) : String :=
  "PDF parsing is disabled in profile \"" ++ profile ++ "\". " ++
    "Set MOLTBOT_PROFILE=default or enable pdfParsing feature to use this functionality."

/-- Message of `BrowserDisabledError` (the playwright wrapper). -/
def browserDisabledMessage (profile : String) : String :=
  "Browser automation is disabled in profile \"" ++ profile ++ "\". " ++
    "Set MOLTBOT_PROFILE=default or enable browser feature to use this functionality."

/-- Message of `WhatsAppDisabledError` (`lazy-baileys.ts`). -/
def whatsAppDisabledMessage (profile : String) : String :=
  "WhatsApp channel is disabled in profile \"" ++ profile ++ "\". " ++
    "Enable WhatsApp in config or use MOLTBOT_CHANNELS=whatsapp to enable it."

/-- Message of `LocalLLMDisabledError` (`lazy-llama.ts`). -/
def localLLMDisabledMessage (profile : String) : String :=
  "Local LLM is disabled in profile \"" ++ profile ++ "\". " ++
    "Set MOLTBOT_PROFILE=default and enable localLLM feature to use this functionality. " ++
    "Alternatively, use API-based embeddings with OpenAI or Anthropic."

/-- Message of the `Error` thrown when the sharp import fails. -/
def sharpLoadFailedMessage (cause : String) : String :=
  "Failed to load sharp. Make sure it\x27s installed: npm install sharp\n" ++
    "On some platforms, you may need to install additional dependencies.\n" ++
    "Original error: " ++ cause

/-- Message of the `Error` thrown when the pdfjs-dist import fails. -/
def pdfjsLoadFailedMessage (cause : String) : String :=
  "Failed to load pdfjs-dist. Make sure it\x27s installed: npm install pdfjs-dist\n" ++
    "Original error: " ++ cause

/-- Message of the `Error` thrown when the playwright-core import fails. -/
def playwrightLoadFailedMessage (cause : String) : String :=
  "Failed to load playwright-core. Make sure it\x27s installed: npm install playwright-core\n" ++
    "Original error: " ++ cause

/-- Message of the `Error` thrown when the baileys import fails. -/
def baileysLoadFailedMessage (cause : String) : String :=
  "Failed to load @whiskeysockets/baileys. Make sure it\x27s installed.\n" ++
    "Original error: " ++ cause

/-- Message of the `Error` thrown when the node-llama-cpp import fails. -/
def llamaLoadFailedMessage (cause : String) : String :=
  "Failed to load node-llama-cpp. Make sure it\x27s installed: npm install node-llama-cpp\n" ++
    "This package requires a C++ compiler and may not work on all platforms.\n" ++
    "Original error: " ++ cause

/-- `loadSharp` from `lazy-sharp.ts`: gated on `imageProcessing`. -/
def loadSharp (flags : FeatureFlags) (profile : String)
    (moduleLoads : Except String Unit) (st : LoaderState) :
    Except LoaderError Unit × LoaderState :=
  if !flags.imageProcessing then
    (Except.error (LoaderError.disabled (imageProcessingDisabledMessage profile)), st)
  else if st.moduleCached then (Except.ok (), st)
  else
    match moduleLoads with
    | Except.ok () => (Except.ok (), ⟨true, st.loadAttempts + 1⟩)
    | Except.error cause =>
        (Except.error (LoaderError.loadFailed (sharpLoadFailedMessage cause)),
          ⟨false, st.loadAttempts + 1⟩)

/-- `loadPdfjs` from `lazy-pdfjs.ts`: gated on `pdfParsing`. -/
def loadPdfjs (flags : FeatureFlags) (profile : String)
    (moduleLoads : Except String Unit) (st : LoaderState) :
    Except LoaderError Unit × LoaderState :=
  if !flags.pdfParsing then
    (Except.error (LoaderError.disabled (pdfParsingDisabledMessage profile)), st)
  else if st.moduleCached then (Except.ok (), st)
  else
    match moduleLoads with
    | Except.ok () => (Except.ok (), ⟨true, st.loadAttempts + 1⟩)
    | Except.error cause =>
        (Except.error (LoaderError.loadFailed (pdfjsLoadFailedMessage cause)),
          ⟨false, st.loadAttempts + 1⟩)

/-- `loadPlaywright` from the playwright wrapper: gated on `browser`. -/
def loadPlaywright (flags : FeatureFlags) (profile : String)
    (moduleLoads : Except String Unit) (st : LoaderState) :
    Except LoaderError Unit × LoaderState :=
  if !flags.browser then
    (Except.error (LoaderError.disabled (browserDisabledMessage profile)), st)
  else if st.moduleCached then (Except.ok (), st)
  else
    match moduleLoads with
    | Except.ok () => (Except.ok (), ⟨true, st.loadAttempts + 1⟩)
    | Except.error cause =>
        (Except.error (LoaderError.loadFailed (playwrightLoadFailedMessage cause)),
          ⟨false, st.loadAttempts + 1⟩)

/-- `loadBaileys` from `lazy-baileys.ts`: gated on the whatsapp channel. -/
def loadBaileys (flags : FeatureFlags) (profile : String)
    (moduleLoads : Except String Unit) (st : LoaderState) :
    Except LoaderError Unit × LoaderState :=
  if !flags.channels.whatsapp then
    (Except.error (LoaderError.disabled (whatsAppDisabledMessage profile)), st)
  else if st.moduleCached then (Except.ok (), st)
  else
    match moduleLoads with
    | Except.ok () => (Except.ok (), ⟨true, st.loadAttempts + 1⟩)
    | Except.error cause =>
        (Except.error (LoaderError.loadFailed (baileysLoadFailedMessage cause)),
          ⟨false, st.loadAttempts + 1⟩)

/-- `loadLlama` from `lazy-llama.ts`: gated on `localLLM`. -/
def loadLlama (flags : FeatureFlags) (profile : String)
    (moduleLoads : Except String Unit) (st : LoaderState) :
    Except LoaderError Unit × LoaderState :=
  if !flags.localLLM then
    (Except.error (LoaderError.disabled (localLLMDisabledMessage profile)), st)
  else if st.moduleCached then (Except.ok (), st)
  else
    match moduleLoads with
    | Except.ok () => (Except.ok (), ⟨true, st.loadAttempts + 1⟩)
    | Except.error cause =>
        (Except.error (LoaderError.loadFailed (llamaLoadFailedMessage cause)),
          ⟨false, st.loadAttempts + 1⟩)

/-! ## Concurrent first-use model

Interleaving model of two callers racing through `loadSharp` (the
playwright wrapper has the identical shape) with the capability enabled.
Each caller has two atomic steps separated by the suspension point of
`await import(...)`:

* `ready` step — execute the null check `if (!sharpModule)`: if the module
  is already cached, finish; otherwise start the import (incrementing
  the counter of started imports) and suspend;
* `importing` step — the import resolves: store the module and finish.

A schedule is the list of caller indices in the order their steps run. -/

/-- Program counter of one caller of `loadSharp`. -/
inductive RacePC where
  | ready | importing | done
  deriving DecidableEq, Repr

/-- Shared cache plus both callers' program counters. -/
structure RaceState where
  moduleLoaded : Bool
  loadAttempts : Nat
  pc0 : RacePC
  pc1 : RacePC
  deriving DecidableEq, Repr

/-- Program counter of caller `i`. -/
def RaceState.pc (s : RaceState) (i : Fin 2) : RacePC :=
  if i = 0 then s.pc0 else s.pc1

/-- Replace the program counter of caller `i`. -/
def RaceState.setPC (s : RaceState) (i : Fin 2) (p : RacePC) : RaceState :=
  if i = 0 then { s with pc0 := p } else { s with pc1 := p }

/-- One atomic step of caller `i` through `loadSharp`. -/
def raceStep (s : RaceState) (i : Fin 2) : RaceState :=
  match s.pc i with
  | .ready =>
      if s.moduleLoaded then s.setPC i .done
      else { s.setPC i .importing with loadAttempts := s.loadAttempts + 1 }
  | .importing => { s.setPC i .done with moduleLoaded := true }
  | .done => s

/-- Run a schedule of caller steps from a state. -/
def raceRun (s : RaceState) (schedule : List (Fin 2)) : RaceState :=
  schedule.foldl raceStep s

/-- Both callers at the start, module not yet loaded. -/
def raceInit : RaceState :=
  { moduleLoaded := false, loadAttempts := 0, pc0 := .ready, pc1 := .ready }

/-- Ordering of the three recommendation tiers, used to state that
`getProfileRecommendation` is monotone in memory: the constrained profile
ranks below the intermediate one, which ranks below the default. -/
def profileRank (name : String) : Nat :=
  if name = "raspberry-pi" then 0 else if name = "lite" then 1 else 2

/-! ## Helper lemmas -/

/-- `setPC` leaves the shared module cache untouched. -/
theorem setPC_moduleLoaded (s : RaceState) (i : Fin 2) (p : RacePC) :
    (s.setPC i p).moduleLoaded = s.moduleLoaded := by
  unfold RaceState.setPC
  split_ifs <;> rfl

/-- `setPC` leaves the import counter untouched. -/
theorem setPC_loadAttempts (s : RaceState) (i : Fin 2) (p : RacePC) :
    (s.setPC i p).loadAttempts = s.loadAttempts := by
  unfold RaceState.setPC
  split_ifs <;> rfl

/-- Field-level description of `applyEnvOverrides`: each override branch
conditionally forces its fields, every other field passes through. -/
theorem applyEnvOverrides_eq (env : Env) (P : FeatureFlags) :
    applyEnvOverrides env P =
      { P with
          browser := if env.MOLTBOT_DISABLE_BROWSER = some "1" then false else P.browser
          imageProcessing :=
            if env.MOLTBOT_DISABLE_SHARP = some "1" then false else P.imageProcessing
          tui := if env.MOLTBOT_DISABLE_TUI = some "1" then false else P.tui
          tools :=
            { P.tools with
                browser :=
                  if env.MOLTBOT_DISABLE_BROWSER = some "1" then false else P.tools.browser
                webScrape :=
                  if env.MOLTBOT_DISABLE_BROWSER = some "1" then false else P.tools.webScrape
                screenshot :=
                  if env.MOLTBOT_DISABLE_BROWSER = some "1" then false else P.tools.screenshot
                imageEdit :=
                  if env.MOLTBOT_DISABLE_SHARP = some "1" then false else P.tools.imageEdit }
          channels :=
            match env.MOLTBOT_CHANNELS with
            | some s => if s == "" then P.channels else channelsFromList (splitComma s)
            | none => P.channels } := by
  obtain ⟨mp, cp, db, ds, dt, ch⟩ := env
  simp only [applyEnvOverrides]
  cases ch <;> dsimp only <;> split_ifs <;> rfl

/-- Reading `channelsFromList` at a channel key is list membership of the
channel's name. -/
theorem channelsFromList_get (l : List String) (c : ChannelId) :
    (channelsFromList l).get c = l.contains c.name := by
  cases c <;> rfl

/-- `strOr` of a non-empty defined string is that string. -/
theorem strOr_some (s : String) (h : s ≠ "") (b : String) : strOr (some s) b = s := by
  simp [strOr, h]

/-- `strOr` of a falsy (unset or empty) string falls through. -/
theorem strOr_falsy (a : Option String) (h : envTruthy a = false) (b : String) :
    strOr a b = b := by
  cases a with
  | none => rfl
  | some s =>
      simp only [envTruthy, Bool.not_eq_false'] at h
      simp [strOr, h]

/-! ## Claims -/

/-- C1 is false as stated: with the channel allow-list override
`MOLTBOT_CHANNELS=whatsapp` on the raspberry-pi profile, the whatsapp
channel is disabled in the base profile yet enabled in the override
result, so the override broadens rather than narrows. -/
theorem C1_channel_allowlist_broadens_counterexample :
    raspberryPiFeatures.channels.whatsapp = false ∧
    (applyEnvOverrides ⟨none, none, none, none, none, some "whatsapp"⟩
        raspberryPiFeatures).channels.whatsapp = true := by
  exact ⟨rfl, by decide⟩

/-- C1 (amended): capability and tool overrides only narrow — an
identifier enabled after `applyEnvOverrides` was enabled in the base
profile.  The channel allow-list, however, is absolute, not narrowing: a
channel resolves to exactly "its name appears in the list", regardless of
its base value (so a listed channel can be turned on even when the base
profile has it off), and when the list variable is unset or empty the
channels are unchanged. -/
theorem C1_overrides_narrow_except_channel_allowlist (env : Env) (P : FeatureFlags) :
    (∀ c : CapabilityId,
        (applyEnvOverrides env P).capability c = true → P.capability c = true) ∧
    (∀ t : ToolId,
        (applyEnvOverrides env P).tools.get t = true → P.tools.get t = true) ∧
    (∀ s : String, env.MOLTBOT_CHANNELS = some s → s ≠ "" →
        ∀ c : ChannelId,
          (applyEnvOverrides env P).channels.get c = (splitComma s).contains c.name) ∧
    (envTruthy env.MOLTBOT_CHANNELS = false →
        (applyEnvOverrides env P).channels = P.channels) := by
  rw [applyEnvOverrides_eq]
  refine ⟨?_, ?_, ?_, ?_⟩
  · intro c
    cases c <;> dsimp only [FeatureFlags.capability] <;>
      first
        | (split_ifs <;> simp)
        | exact id
  · intro t
    cases t <;> dsimp only [ToolFeatures.get] <;>
      first
        | (split_ifs <;> simp)
        | exact id
  · intro s hs hne c
    simp only [hs]
    rw [if_neg (by simpa using hne)]
    exact channelsFromList_get _ c
  · intro h
    cases hch : env.MOLTBOT_CHANNELS with
    | none => simp [hch]
    | some s =>
        rw [hch] at h
        simp only [envTruthy, Bool.not_eq_false'] at h
        simp [hch, h]

/-- Witness for C1: the channel allow-list conjunct applied at the
concrete counterexample environment. -/
theorem C1_overrides_narrow_witness :
    "whatsapp" ≠ "" ∧
    (applyEnvOverrides ⟨none, none, none, none, none, some "whatsapp"⟩
          raspberryPiFeatures).channels.get ChannelId.whatsapp =
      (splitComma "whatsapp").contains (ChannelId.name ChannelId.whatsapp) :=
  ⟨by decide,
    (C1_overrides_narrow_except_channel_allowlist
        ⟨none, none, none, none, none, some "whatsapp"⟩ raspberryPiFeatures).2.2.1
      "whatsapp" rfl (by decide) ChannelId.whatsapp⟩

/-- C7: `applyEnvOverrides` is idempotent for a fixed environment —
applying the overrides twice equals applying them once, in every
capability, channel, and tool flag. -/
theorem C7_applyEnvOverrides_idempotent (env : Env) (P : FeatureFlags) :
    applyEnvOverrides env (applyEnvOverrides env P) = applyEnvOverrides env P := by
  obtain ⟨mp, cp, db, ds, dt, ch⟩ := env
  simp only [applyEnvOverrides]
  cases ch <;> dsimp only <;> split_ifs <;> rfl

/-- C8: with the disable-browser flag set and the other overrides unset,
`applyEnvOverrides` forces `browser`, `tools.browser`, `tools.webScrape`
and `tools.screenshot` to `false` and leaves every other field of the
base profile unchanged. -/
theorem C8_disable_browser_exact (env : Env) (P : FeatureFlags)
    (hb : env.MOLTBOT_DISABLE_BROWSER = some "1")
    (hs : env.MOLTBOT_DISABLE_SHARP ≠ some "1")
    (ht : env.MOLTBOT_DISABLE_TUI ≠ some "1")
    (hc : envTruthy env.MOLTBOT_CHANNELS = false) :
    applyEnvOverrides env P =
      { P with
          browser := false
          tools := { P.tools with
                       browser := false, webScrape := false, screenshot := false } } := by
  rw [applyEnvOverrides_eq, hb]
  rw [if_pos rfl, if_pos rfl, if_pos rfl, if_pos rfl, if_neg hs, if_neg hs, if_neg ht]
  cases hch : env.MOLTBOT_CHANNELS with
  | none => rfl
  | some s =>
      rw [hch] at hc
      simp only [envTruthy, Bool.not_eq_false'] at hc
      simp [hc]

/-- Witness for C8: the disable-browser override applied to the
raspberry-pi profile under the concrete environment that sets only
`MOLTBOT_DISABLE_BROWSER=1`. -/
theorem C8_disable_browser_witness :
    applyEnvOverrides ⟨none, none, some "1", none, none, none⟩ raspberryPiFeatures =
      { raspberryPiFeatures with
          browser := false
          tools := { raspberryPiFeatures.tools with
                       browser := false, webScrape := false, screenshot := false } } :=
  C8_disable_browser_exact ⟨none, none, some "1", none, none, none⟩ raspberryPiFeatures
    rfl (by decide) (by decide) (by decide)

/-- C2 is false as stated: a forced `loadFeatures("embedded")` returns the
embedded flags but neither updates the cache nor is reflected by
`getCurrentProfile` — the subsequent unforced channel query still reads
the previously cached default-profile flags, and the reported profile
name stays the environment value, not the forced name. -/
theorem C2_forced_profile_round_trip_counterexample :
    (loadFeatures ⟨some "default", none, none, none, none, none⟩ ⟨false, 4096⟩ none
        ⟨none⟩).2 = ⟨some defaultFeatures⟩ ∧
    (loadFeatures ⟨some "default", none, none, none, none, none⟩ ⟨false, 4096⟩
        (some "embedded") ⟨some defaultFeatures⟩).1 = embeddedFeatures ∧
    (loadFeatures ⟨some "default", none, none, none, none, none⟩ ⟨false, 4096⟩
        (some "embedded") ⟨some defaultFeatures⟩).2 = ⟨some defaultFeatures⟩ ∧
    (isChannelEnabled ⟨some "default", none, none, none, none, none⟩ ⟨false, 4096⟩
        ⟨some defaultFeatures⟩ ChannelId.whatsapp).1 = true ∧
    embeddedFeatures.channels.whatsapp = false ∧
    getCurrentProfile ⟨some "default", none, none, none, none, none⟩ ⟨false, 4096⟩ =
      "default" := by
  decide

/-- C2 (amended): a forced `loadFeatures` call bypasses the cache and
returns the forced profile's flags with overrides applied for that call
only; it leaves the cache untouched, a subsequent unforced call still
returns the previously cached flags, and `getCurrentProfile` is
independent of forcing, always yielding the environment-resolved name. -/
theorem C2_forced_profile_bypasses_cache (env : Env) (host : Host) (n : String)
    (hn : n ≠ "") (st : FeaturesState) :
    (loadFeatures env host (some n) st).1 =
      applyEnvOverrides env ((profiles n).getD defaultFeatures) ∧
    (loadFeatures env host (some n) st).2 = st ∧
    (∀ f : FeatureFlags, st.cachedFeatures = some f →
        (loadFeatures env host none st).1 = f) ∧
    getCurrentProfile env host = resolveProfileName env host none := by
  have htr : envTruthy (some n) = true := by
    simp [envTruthy, hn]
  have hname : resolveProfileName env host (some n) = n := strOr_some n hn _
  obtain ⟨cached⟩ := st
  refine ⟨?_, ?_, ?_, rfl⟩
  · cases cached <;> simp [loadFeatures, htr, hname]
  · cases cached <;> simp [loadFeatures, htr, hname]
  · intro f hf
    cases cached with
    | none => simp at hf
    | some g =>
        obtain rfl : g = f := by simpa using hf
        simp [loadFeatures, envTruthy]

/-- Witness for C2 (amended): forcing the embedded profile over a cache
holding the default flags returns the embedded flags and keeps the cache. -/
theorem C2_forced_profile_bypasses_cache_witness :
    "embedded" ≠ "" ∧
    (loadFeatures ⟨some "default", none, none, none, none, none⟩ ⟨false, 4096⟩
        (some "embedded") ⟨some defaultFeatures⟩).1 =
      applyEnvOverrides ⟨some "default", none, none, none, none, none⟩
        ((profiles "embedded").getD defaultFeatures) :=
  ⟨by decide,
    (C2_forced_profile_bypasses_cache ⟨some "default", none, none, none, none, none⟩
        ⟨false, 4096⟩ "embedded" (by decide) ⟨some defaultFeatures⟩).1⟩

/-- C6: profile resolution is first-match-wins over forced name,
MOLTBOT_PROFILE, legacy CLAWDBOT_PROFILE, then auto-detection
(Raspberry-Pi host with memory below 600 MB gives raspberry-pi, otherwise
default); an unregistered name falls back to the default flag set, and
resolution is total. -/
theorem C6_resolution_first_match_wins (env : Env) (host : Host)
    (forced : Option String) (st : FeaturesState) (n : String) :
    (∀ s : String, forced = some s → s ≠ "" → resolveProfileName env host forced = s) ∧
    (envTruthy forced = false →
        ∀ s : String, env.MOLTBOT_PROFILE = some s → s ≠ "" →
          resolveProfileName env host forced = s) ∧
    (envTruthy forced = false → envTruthy env.MOLTBOT_PROFILE = false →
        ∀ s : String, env.CLAWDBOT_PROFILE = some s → s ≠ "" →
          resolveProfileName env host forced = s) ∧
    (envTruthy forced = false → envTruthy env.MOLTBOT_PROFILE = false →
        envTruthy env.CLAWDBOT_PROFILE = false →
        resolveProfileName env host forced = detectProfile host) ∧
    (host.isRaspberryPi = true → host.totalMemoryMB < 600 →
        detectProfile host = "raspberry-pi") ∧
    (host.isRaspberryPi = false ∨ 600 ≤ host.totalMemoryMB →
        detectProfile host = "default") ∧
    (st.cachedFeatures = none →
        (loadFeatures env host forced st).1 =
          applyEnvOverrides env
            ((profiles (resolveProfileName env host forced)).getD defaultFeatures)) ∧
    (profiles n = none → (profiles n).getD defaultFeatures = defaultFeatures) := by
  refine ⟨?_, ?_, ?_, ?_, ?_, ?_, ?_, ?_⟩
  · rintro s rfl hs
    exact strOr_some s hs _
  · intro hf s hp hs
    rw [resolveProfileName, strOr_falsy forced hf, hp, strOr_some s hs]
  · intro hf hm s hp hs
    rw [resolveProfileName, strOr_falsy forced hf, strOr_falsy _ hm, hp,
      strOr_some s hs]
  · intro hf hm hc
    rw [resolveProfileName, strOr_falsy forced hf, strOr_falsy _ hm, strOr_falsy _ hc]
  · intro hr hm
    simp [detectProfile, hr, hm]
  · intro h
    rcases h with h | h
    · simp [detectProfile, h]
    · simp [detectProfile, Nat.not_lt.mpr h]
  · intro hc
    obtain ⟨cached⟩ := st
    simp only at hc
    subst hc
    cases htr : envTruthy forced <;> simp [loadFeatures, htr]
  · intro h
    simp [h]

/-- Witness for C6: with no forced name and `MOLTBOT_PROFILE=lite`, the
resolved name is `lite`. -/
theorem C6_resolution_first_match_wins_witness :
    envTruthy none = false ∧ "lite" ≠ "" ∧
    resolveProfileName ⟨some "lite", some "embedded", none, none, none, none⟩
      ⟨true, 512⟩ none = "lite" :=
  ⟨by decide, by decide,
    (C6_resolution_first_match_wins ⟨some "lite", some "embedded", none, none, none, none⟩
        ⟨true, 512⟩ none ⟨none⟩ "lite").2.1 (by decide) "lite" rfl (by decide)⟩

/-- C10: for an environment that names an unregistered profile,
`getCurrentProfile` reports that raw name while `loadFeatures` silently
falls back to the default flag set, so the reported name (also embedded
in capability-disabled error messages) differs from the profile actually
in effect. -/
theorem C10_unregistered_name_mismatch (env : Env) (host : Host) (n : String)
    (hp : env.MOLTBOT_PROFILE = some n) (hn : n ≠ "") (hreg : profiles n = none) :
    getCurrentProfile env host = n ∧
    (∀ st : FeaturesState, st.cachedFeatures = none →
        (loadFeatures env host none st).1 = applyEnvOverrides env defaultFeatures) ∧
    n ≠ "default" ∧
    (∃ pre post : String,
        imageProcessingDisabledMessage (getCurrentProfile env host) = pre ++ n ++ post) := by
  have hcur : getCurrentProfile env host = n := by
    rw [getCurrentProfile, hp, strOr_some n hn]
  have hres : resolveProfileName env host none = n := by
    rw [resolveProfileName, strOr, hp, strOr_some n hn]
  refine ⟨hcur, ?_, ?_, ?_⟩
  · intro st hst
    obtain ⟨cached⟩ := st
    simp only at hst
    subst hst
    simp [loadFeatures, envTruthy, hres, hreg]
  · intro h
    rw [h] at hreg
    simp [profiles] at hreg
  · refine ⟨"Image processing is disabled in profile \"",
      "\". " ++ "Set MOLTBOT_PROFILE=default or enable imageProcessing feature. " ++
        "Alternatively, use Claude Vision API for image analysis.", ?_⟩
    rw [hcur]
    simp [imageProcessingDisabledMessage, String.append_assoc]

/-- Witness for C10: the unregistered name `bogus-profile` is reported by
`getCurrentProfile` even though its flags are the default profile's. -/
theorem C10_unregistered_name_mismatch_witness :
    profiles "bogus-profile" = none ∧
    getCurrentProfile ⟨some "bogus-profile", none, none, none, none, none⟩
      ⟨false, 2048⟩ = "bogus-profile" :=
  ⟨by decide,
    (C10_unregistered_name_mismatch ⟨some "bogus-profile", none, none, none, none, none⟩
        ⟨false, 2048⟩ "bogus-profile" rfl (by decide) (by decide)).1⟩

/-- C4: for each of the five loaders, a disabled capability flag makes
the call fail immediately with the capability-specific disabled error —
whose message embeds the current profile name followed by a remediation
hint — without attempting the import and without touching the cached
module reference or the import counter. -/
theorem C4_disabled_fails_before_import (flags : FeatureFlags) (profile : String)
    (moduleLoads : Except String Unit) (st : LoaderState) :
    (flags.imageProcessing = false →
        loadSharp flags profile moduleLoads st =
          (Except.error (LoaderError.disabled (imageProcessingDisabledMessage profile)), st)) ∧
    (flags.pdfParsing = false →
        loadPdfjs flags profile moduleLoads st =
          (Except.error (LoaderError.disabled (pdfParsingDisabledMessage profile)), st)) ∧
    (flags.browser = false →
        loadPlaywright flags profile moduleLoads st =
          (Except.error (LoaderError.disabled (browserDisabledMessage profile)), st)) ∧
    (flags.channels.whatsapp = false →
        loadBaileys flags profile moduleLoads st =
          (Except.error (LoaderError.disabled (whatsAppDisabledMessage profile)), st)) ∧
    (flags.localLLM = false →
        loadLlama flags profile moduleLoads st =
          (Except.error (LoaderError.disabled (localLLMDisabledMessage profile)), st)) ∧
    (∃ pre post : String,
        imageProcessingDisabledMessage profile = pre ++ profile ++ post ∧ post ≠ "") ∧
    (∃ pre post : String,
        pdfParsingDisabledMessage profile = pre ++ profile ++ post ∧ post ≠ "") ∧
    (∃ pre post : String,
        browserDisabledMessage profile = pre ++ profile ++ post ∧ post ≠ "") ∧
    (∃ pre post : String,
        whatsAppDisabledMessage profile = pre ++ profile ++ post ∧ post ≠ "") ∧
    (∃ pre post : String,
        localLLMDisabledMessage profile = pre ++ profile ++ post ∧ post ≠ "") := by
  refine ⟨?_, ?_, ?_, ?_, ?_, ?_, ?_, ?_, ?_, ?_⟩
  · intro h
    simp [loadSharp, h]
  · intro h
    simp [loadPdfjs, h]
  · intro h
    simp [loadPlaywright, h]
  · intro h
    simp [loadBaileys, h]
  · intro h
    simp [loadLlama, h]
  · exact ⟨"Image processing is disabled in profile \"",
      "\". " ++ "Set MOLTBOT_PROFILE=default or enable imageProcessing feature. " ++
        "Alternatively, use Claude Vision API for image analysis.",
      by simp [imageProcessingDisabledMessage, String.append_assoc], by decide⟩
  · exact ⟨"PDF parsing is disabled in profile \"",
      "\". " ++ "Set MOLTBOT_PROFILE=default or enable pdfParsing feature to use this functionality.",
      by simp [pdfParsingDisabledMessage, String.append_assoc], by decide⟩
  · exact ⟨"Browser automation is disabled in profile \"",
      "\". " ++ "Set MOLTBOT_PROFILE=default or enable browser feature to use this functionality.",
      by simp [browserDisabledMessage, String.append_assoc], by decide⟩
  · exact ⟨"WhatsApp channel is disabled in profile \"",
      "\". " ++ "Enable WhatsApp in config or use MOLTBOT_CHANNELS=whatsapp to enable it.",
      by simp [whatsAppDisabledMessage, String.append_assoc], by decide⟩
  · exact ⟨"Local LLM is disabled in profile \"",
      "\". " ++ "Set MOLTBOT_PROFILE=default and enable localLLM feature to use this functionality. " ++
        "Alternatively, use API-based embeddings with OpenAI or Anthropic.",
      by simp [localLLMDisabledMessage, String.append_assoc], by decide⟩

/-- Witness for C4: calling the sharp loader under the embedded profile
(image processing off) raises the disabled error and leaves the loader
state unchanged. -/
theorem C4_disabled_fails_before_import_witness :
    embeddedFeatures.imageProcessing = false ∧
    loadSharp embeddedFeatures "embedded" (Except.ok ()) ⟨false, 0⟩ =
      (Except.error (LoaderError.disabled (imageProcessingDisabledMessage "embedded")),
        ⟨false, 0⟩) :=
  ⟨rfl,
    (C4_disabled_fails_before_import embeddedFeatures "embedded" (Except.ok ())
        ⟨false, 0⟩).1 rfl⟩

/-- C5: when a capability is enabled but its module import fails, each
loader raises the load-failure error — a kind distinct from the disabled
error — whose message wraps the underlying cause; the module reference
stays unset, and the next call retries the import (and can succeed)
instead of re-raising a cached failure. -/
theorem C5_load_failure_distinct_and_retried (flags : FeatureFlags) (profile : String)
    (cause : String) (st : LoaderState) :
    (flags.imageProcessing = true → st.moduleCached = false →
        loadSharp flags profile (Except.error cause) st =
          (Except.error (LoaderError.loadFailed (sharpLoadFailedMessage cause)),
            ⟨false, st.loadAttempts + 1⟩) ∧
        loadSharp flags profile (Except.ok ()) ⟨false, st.loadAttempts + 1⟩ =
          (Except.ok (), ⟨true, st.loadAttempts + 2⟩)) ∧
    (flags.pdfParsing = true → st.moduleCached = false →
        loadPdfjs flags profile (Except.error cause) st =
          (Except.error (LoaderError.loadFailed (pdfjsLoadFailedMessage cause)),
            ⟨false, st.loadAttempts + 1⟩) ∧
        loadPdfjs flags profile (Except.ok ()) ⟨false, st.loadAttempts + 1⟩ =
          (Except.ok (), ⟨true, st.loadAttempts + 2⟩)) ∧
    (flags.browser = true → st.moduleCached = false →
        loadPlaywright flags profile (Except.error cause) st =
          (Except.error (LoaderError.loadFailed (playwrightLoadFailedMessage cause)),
            ⟨false, st.loadAttempts + 1⟩) ∧
        loadPlaywright flags profile (Except.ok ()) ⟨false, st.loadAttempts + 1⟩ =
          (Except.ok (), ⟨true, st.loadAttempts + 2⟩)) ∧
    (flags.channels.whatsapp = true → st.moduleCached = false →
        loadBaileys flags profile (Except.error cause) st =
          (Except.error (LoaderError.loadFailed (baileysLoadFailedMessage cause)),
            ⟨false, st.loadAttempts + 1⟩) ∧
        loadBaileys flags profile (Except.ok ()) ⟨false, st.loadAttempts + 1⟩ =
          (Except.ok (), ⟨true, st.loadAttempts + 2⟩)) ∧
    (flags.localLLM = true → st.moduleCached = false →
        loadLlama flags profile (Except.error cause) st =
          (Except.error (LoaderError.loadFailed (llamaLoadFailedMessage cause)),
            ⟨false, st.loadAttempts + 1⟩) ∧
        loadLlama flags profile (Except.ok ()) ⟨false, st.loadAttempts + 1⟩ =
          (Except.ok (), ⟨true, st.loadAttempts + 2⟩)) ∧
    (∀ m m' : String, LoaderError.loadFailed m ≠ LoaderError.disabled m') ∧
    (∃ pre : String, sharpLoadFailedMessage cause = pre ++ cause) ∧
    (∃ pre : String, pdfjsLoadFailedMessage cause = pre ++ cause) ∧
    (∃ pre : String, playwrightLoadFailedMessage cause = pre ++ cause) ∧
    (∃ pre : String, baileysLoadFailedMessage cause = pre ++ cause) ∧
    (∃ pre : String, llamaLoadFailedMessage cause = pre ++ cause) := by
  obtain ⟨mc, la⟩ := st
  refine ⟨?_, ?_, ?_, ?_, ?_, ?_, ?_, ?_, ?_, ?_, ?_⟩
  · intro h1 h2
    simp only at h2
    subst h2
    exact ⟨by simp [loadSharp, h1], by simp [loadSharp, h1]⟩
  · intro h1 h2
    simp only at h2
    subst h2
    exact ⟨by simp [loadPdfjs, h1], by simp [loadPdfjs, h1]⟩
  · intro h1 h2
    simp only at h2
    subst h2
    exact ⟨by simp [loadPlaywright, h1], by simp [loadPlaywright, h1]⟩
  · intro h1 h2
    simp only at h2
    subst h2
    exact ⟨by simp [loadBaileys, h1], by simp [loadBaileys, h1]⟩
  · intro h1 h2
    simp only at h2
    subst h2
    exact ⟨by simp [loadLlama, h1], by simp [loadLlama, h1]⟩
  · intro m m'
    simp
  · exact ⟨"Failed to load sharp. Make sure it\x27s installed: npm install sharp\n" ++
      "On some platforms, you may need to install additional dependencies.\n" ++
      "Original error: ", rfl⟩
  · exact ⟨"Failed to load pdfjs-dist. Make sure it\x27s installed: npm install pdfjs-dist\n" ++
      "Original error: ", rfl⟩
  · exact ⟨"Failed to load playwright-core. Make sure it\x27s installed: npm install playwright-core\n" ++
      "Original error: ", rfl⟩
  · exact ⟨"Failed to load @whiskeysockets/baileys. Make sure it\x27s installed.\n" ++
      "Original error: ", rfl⟩
  · exact ⟨"Failed to load node-llama-cpp. Make sure it\x27s installed: npm install node-llama-cpp\n" ++
      "This package requires a C++ compiler and may not work on all platforms.\n" ++
      "Original error: ", rfl⟩

/-- Witness for C5: a failed sharp import under the default profile raises
the load-failure error with the cause wrapped, incrementing the attempt
counter and leaving the module uncached. -/
theorem C5_load_failure_distinct_and_retried_witness :
    defaultFeatures.imageProcessing = true ∧
    loadSharp defaultFeatures "default" (Except.error "MODULE_NOT_FOUND") ⟨false, 0⟩ =
      (Except.error (LoaderError.loadFailed (sharpLoadFailedMessage "MODULE_NOT_FOUND")),
        ⟨false, 1⟩) :=
  ⟨rfl,
    ((C5_load_failure_distinct_and_retried defaultFeatures "default" "MODULE_NOT_FOUND"
        ⟨false, 0⟩).1 rfl rfl).1⟩

/-- C9: the recommendation tiers are below 600 MB raspberry-pi, from
600 MB up to (not including) 1500 MB lite, from 1500 MB default; on
500/1000/4000 MB they yield raspberry-pi/lite/default; each result
carries a non-empty justification and the measured memory; the
recommended tier is monotone in memory. -/
theorem C9_recommendation_tiers (m m' : Nat) :
    (m < 600 → getProfileRecommendation m =
        ⟨"raspberry-pi", "Low memory detected (<600MB)", m⟩) ∧
    (600 ≤ m → m < 1500 → getProfileRecommendation m =
        ⟨"lite", "Limited memory detected (<1.5GB)", m⟩) ∧
    (1500 ≤ m → getProfileRecommendation m =
        ⟨"default", "Sufficient memory for full features", m⟩) ∧
    getProfileRecommendation 500 =
      ⟨"raspberry-pi", "Low memory detected (<600MB)", 500⟩ ∧
    getProfileRecommendation 1000 =
      ⟨"lite", "Limited memory detected (<1.5GB)", 1000⟩ ∧
    getProfileRecommendation 4000 =
      ⟨"default", "Sufficient memory for full features", 4000⟩ ∧
    (m ≤ m' → profileRank (getProfileRecommendation m).profile ≤
        profileRank (getProfileRecommendation m').profile) ∧
    (getProfileRecommendation m).memoryMB = m ∧
    (getProfileRecommendation m).reason ≠ "" := by
  have hprof : ∀ k : Nat, (getProfileRecommendation k).profile =
      if k < 600 then "raspberry-pi" else if k < 1500 then "lite" else "default" := by
    intro k
    unfold getProfileRecommendation
    split_ifs <;> rfl
  refine ⟨?_, ?_, ?_, by decide, by decide, by decide, ?_, ?_, ?_⟩
  · intro h
    simp [getProfileRecommendation, h]
  · intro h1 h2
    simp [getProfileRecommendation, Nat.not_lt.mpr h1, h2]
  · intro h
    have h6 : ¬ m < 600 := by omega
    have h15 : ¬ m < 1500 := by omega
    simp [getProfileRecommendation, h6, h15]
  · intro hmm
    rw [hprof, hprof]
    by_cases h1 : m' < 600
    · rw [if_pos (lt_of_le_of_lt hmm h1), if_pos h1]
    · by_cases h2 : m' < 1500
      · rw [if_neg h1, if_pos h2]
        by_cases h3 : m < 600
        · rw [if_pos h3]
          decide
        · rw [if_neg h3, if_pos (lt_of_le_of_lt hmm h2)]
      · rw [if_neg h1, if_neg h2]
        by_cases h3 : m < 600
        · rw [if_pos h3]
          decide
        · by_cases h4 : m < 1500
          · rw [if_neg h3, if_pos h4]
            decide
          · rw [if_neg h3, if_neg h4]
  · unfold getProfileRecommendation
    split_ifs <;> rfl
  · unfold getProfileRecommendation
    split_ifs <;> dsimp only <;> decide

/-- Witness for C9: 500 MB is in the constrained tier. -/
theorem C9_recommendation_tiers_witness :
    500 < 600 ∧
    getProfileRecommendation 500 =
      ⟨"raspberry-pi", "Low memory detected (<600MB)", 500⟩ :=
  ⟨by decide, (C9_recommendation_tiers 500 9999).1 (by decide)⟩

/-- C3 is false as stated: in the interleaving where both callers execute
their null check before either import completes (`[0, 1, 0, 1]`), two of
the imports are started, not exactly one. -/
theorem C3_concurrent_first_use_counterexample :
    (raceRun raceInit [0, 1, 0, 1]).loadAttempts = 2 ∧
    ¬ (raceRun raceInit [0, 1, 0, 1]).loadAttempts = 1 := by
  decide

/-- C3 (amended): the loader cache de-duplicates only completed loads — a
caller whose check runs after another caller's import has finished reuses
the module (one import in the sequential schedule), but two callers that
both pass the null check while the handle is unloaded each start their
own import (two in the interleaved schedule); once the module is loaded,
no schedule ever starts another import. -/
theorem C3_dedup_only_after_completed_load :
    (raceRun raceInit [0, 0, 1]).loadAttempts = 1 ∧
    (raceRun raceInit [0, 1, 0, 1]).loadAttempts = 2 ∧
    (∀ s : RaceState, s.moduleLoaded = true → ∀ sched : List (Fin 2),
        (raceRun s sched).loadAttempts = s.loadAttempts) := by
  have hstep : ∀ (s : RaceState) (i : Fin 2), s.moduleLoaded = true →
      (raceStep s i).moduleLoaded = true ∧ (raceStep s i).loadAttempts = s.loadAttempts := by
    intro s i hs
    unfold raceStep
    cases s.pc i with
    | ready => simp [hs, setPC_moduleLoaded, setPC_loadAttempts]
    | importing => simp [setPC_moduleLoaded, setPC_loadAttempts]
    | done => exact ⟨hs, rfl⟩
  refine ⟨by decide, by decide, ?_⟩
  intro s hs sched
  induction sched generalizing s with
  | nil => rfl
  | cons i rest ih =>
      show (raceRun (raceStep s i) rest).loadAttempts = s.loadAttempts
      rw [ih (raceStep s i) (hstep s i hs).1, (hstep s i hs).2]

/-- Witness for C3 (amended): from a loaded state with three recorded
attempts, running both callers adds no further import. -/
theorem C3_dedup_only_after_completed_load_witness :
    (⟨true, 3, RacePC.ready, RacePC.ready⟩ : RaceState).moduleLoaded = true ∧
    (raceRun ⟨true, 3, RacePC.ready, RacePC.ready⟩ [0, 1]).loadAttempts =
      (⟨true, 3, RacePC.ready, RacePC.ready⟩ : RaceState).loadAttempts :=
  ⟨rfl,
    C3_dedup_only_after_completed_load.2.2 ⟨true, 3, RacePC.ready, RacePC.ready⟩ rfl [0, 1]⟩

end Moltbot
